import Mathlib

/-!
Verification of the Conversation Stage Orchestrator of the
`fullstackvoice` repository (`backend/agent_telugu.py`).

The Python class `NxtWaveOnboardingAgent` is shallowly embedded below:
its mutable fields become the `Agent` structure, each `async` method
becomes a pure Lean function returning the updated `Agent` together with
the ordered list of external calls (`Effect`s) it performs, and the
external collaborators (realtime speech session, knowledge-lookup query
engine, room data channel) become explicit parameters.  JSON payloads
arriving on the data channel are modelled as association lists of
`JValue`s; a byte sequence that fails `json.loads` is modelled as the
`Except.error` case of the decoded input.
-/

/-- JSON-like values appearing in control-message payloads and in the
outbound notification payloads (strings, booleans, null). -/
inductive JValue where
  | jstr (s : String)
  | jbool (b : Bool)
  | jnull
  deriving DecidableEq

/-- Python truthiness of a `JValue` (`if value:`): a string is truthy iff
nonempty, a boolean is itself, null is falsy. -/
def JValue.truthy : JValue → Bool
  | JValue.jstr s => s != ""
  | JValue.jbool b => b
  | JValue.jnull => false

/-- Python `str(value)` rendering used when a payload value is spliced
into a format string. -/
def JValue.format : JValue → String
  | JValue.jstr s => s
  | JValue.jbool true => "True"
  | JValue.jbool false => "False"
  | JValue.jnull => "None"

/-- The external realtime speech session (`AgentSession`).  Its `room`
field records the truthiness of `session.room`, which guards outbound
`publish_data` notifications. -/
structure Session where
  room : Bool
  deriving DecidableEq

/-- The knowledge-lookup gateway (`self.query_engine.query`): takes the
user query and either returns retrieved text or raises. -/
def QueryEngine := String → Except String String

/-- The mutable state of `NxtWaveOnboardingAgent`: the configured query
engine, `self.current_stage`, `self.user_payment_choice`, and
`self.agent_session`. -/
structure Agent where
  query_engine : Option QueryEngine
  current_stage : JValue
  user_payment_choice : Option String
  agent_session : Option Session

/-- A decoded control-message payload (a JSON object), as an association
list of keys to values. -/
abbrev Payload := List (String × JValue)

/-- Python `payload.get(key)`: the value at the first occurrence of
`key`, or `None` (here `none`) when absent. -/
def pget : Payload → String → Option JValue
  | [], _ => none
  | (k, v) :: rest, key => if k = key then some v else pget rest key

/-- Python `key in payload`. -/
def pcontains (p : Payload) (k : String) : Bool :=
  (pget p k).isSome

/-- Python `payload[key]`, used only where the key is known present. -/
def pindex (p : Payload) (k : String) : JValue :=
  (pget p k).getD JValue.jnull

/-- Python truthiness of `payload.get(key)` (`None` is falsy). -/
def optTruthy : Option JValue → Bool
  | none => false
  | some v => v.truthy

/-- Boolean prefix test on character lists. -/
def isPrefixOfChars : List Char → List Char → Bool
  | [], _ => true
  | _ :: _, [] => false
  | a :: as, b :: bs => a == b && isPrefixOfChars as bs

/-- Boolean contiguous-sublist test on character lists. -/
def isInfixOfChars (needle : List Char) : List Char → Bool
  | [] => isPrefixOfChars needle []
  | b :: bs => isPrefixOfChars needle (b :: bs) || isInfixOfChars needle bs

/-- Python `needle in haystack` on strings: substring containment. -/
def strContains (haystack needle : String) : Bool :=
  isInfixOfChars needle.data haystack.data

/-- Python `str.lower()` (per-character ASCII lowering, which covers
every keyword the agent matches against). -/
def strLower (s : String) : String :=
  ⟨s.data.map Char.toLower⟩

/-- Python `stage.replace("_", " ")`: the pattern replaced is the single
character underscore, so the call is the per-character substitution of
spaces for underscores. -/
def replaceUnderscores (s : String) : String :=
  ⟨s.data.map (fun c => if c = '_' then ' ' else c)⟩

/-- Python `any(keyword in user_query for keyword in keywords)`. -/
def anyKeyword (keywords : List String) (user_query : String) : Bool :=
  keywords.any (fun kw => strContains user_query kw)

/-- The free-speech keywords mapped to `credit_card`. -/
def creditCardKeywords : List String := ["credit card", "credit", "card"]

/-- The free-speech keywords mapped to `full_payment`. -/
def fullPaymentKeywords : List String := ["full payment", "full", "upfront", "one time"]

/-- The free-speech keywords mapped to `nbfc_emi`. -/
def nbfcEmiKeywords : List String := ["emi", "loan", "nbfc", "installment", "monthly"]

/-- The persona preamble `PRE_SYSTEM_PROMPT`. -/
def PRE_SYSTEM_PROMPT : String :=
  "You are a Program Registration Expert (PRE) representing NxtWave. " ++
  "Your mission is to guide newly registered students and their parents through the Intro Call onboarding journey, " ++
  "ensuring clarity, trust, and completion of the loan setup process. " ++
  "You act as a voice-guided onboarding assistant who explains the process, answers queries clearly, " ++
  "and ensures the family completes all actions (document uploads, verification, confirmations) during this session. " ++
  "Your tone must be warm and confident, clear, jargon-free, and human, supportive but outcome-focused, " ++
  "and firm when needed to drive completion. Never sound robotic, salesy, or overly formal. " ++
  "Speak naturally, as a real advisor who wants the family to succeed."

/-- Guidance text for the `greeting` stage. -/
def greetingFocus : String :=
  "Focus on greeting the family warmly, introduce yourself as Maya from NxtWave, confirm the learner\x27s name, " ++
  "and set clear expectations for the onboarding flow before discussing payment options. " ++
  "Use natural Telugu with helpful English words when it keeps the family comfortable."

/-- Guidance text for the `payment_options` stage. -/
def paymentOptionsFocus : String :=
  "Share the three payment choices: Credit Card, Full Payment, and 0 percent Interest Loan with NBFC (EMI). " ++
  "Present them in a crisp, reassuring manner. Encourage the family to pick the option that fits them best " ++
  "and clarify that you will guide them through the next steps. Keep the tone confident yet friendly."

/-- Guidance text for the `nbfc_selection` stage. -/
def nbfcSelectionFocus : String :=
  "Guide the family through selecting an NBFC partner for the EMI path. " ++
  "Explain approval steps, timelines, and required documents so they feel prepared to continue immediately. " ++
  "Reinforce trust and keep momentum toward completion."

/-- Guidance text for the `kyc` stage. -/
def kycFocus : String :=
  "Walk the family through uploading PAN, address proof, and bank statements. " ++
  "Check for understanding, resolve doubts, and reassure them that you are staying with them until every document is submitted correctly."

/-- Guidance text for the `rca` stage. -/
def rcaFocus : String :=
  "Summarize commitments, confirm the agreed timelines, and close the session with decisive next steps. " ++
  "Make sure the family feels confident about what happens after this call."

/-- The stage catalog `STAGE_FOCUS_PROMPTS` mapping stage id to guidance
text. -/
def STAGE_FOCUS_PROMPTS : List (String × String) :=
  [("greeting", greetingFocus),
   ("payment_options", paymentOptionsFocus),
   ("nbfc_selection", nbfcSelectionFocus),
   ("kyc", kycFocus),
   ("rca", rcaFocus)]

/-- Association-list lookup used for `STAGE_FOCUS_PROMPTS.get`. -/
def lookupStr : List (String × String) → String → Option String
  | [], _ => none
  | (k, v) :: rest, key => if k = key then some v else lookupStr rest key

/-- Python `STAGE_FOCUS_PROMPTS.get(self.current_stage)`: a non-string
stage value is in no catalog entry, so it yields `None`. -/
def stageFocusGet : JValue → Option String
  | JValue.jstr s => lookupStr STAGE_FOCUS_PROMPTS s
  | _ => none

/-- One external call made by the orchestrator, in program order:
a `generate_reply(instructions=...)` dispatch (`none` = the default,
instruction-free reply), a `publish_data` notification with the given
payload, or a knowledge-gateway `query` invocation. -/
inductive Effect where
  | reply (instructions : Option String)
  | publish (payload : List (String × JValue))
  | ragQuery (text : String)
  deriving DecidableEq

/-- Whether an effect is a reply dispatch (`generate_reply` call). -/
def isReply : Effect → Bool
  | Effect.reply _ => true
  | _ => false

/-- Number of reply dispatches in an effect trace. -/
def countReplies (effects : List Effect) : Nat :=
  (effects.filter isReply).length

/-- Whether an effect is a published notification whose payload carries
`status = "ended"`. -/
def isEndedPublish : Effect → Bool
  | Effect.publish p => pget p "status" = some (JValue.jstr "ended")
  | _ => false

/-- Number of published "ended" notifications in an effect trace. -/
def countEnded (effects : List Effect) : Nat :=
  (effects.filter isEndedPublish).length

/-- The fixed hand-off message dispatched when the choice is
`credit_card` or `full_payment`. -/
def humanAgentMessage : String :=
  "Our human agent will contact you shortly for the payment process."

/-- The fixed continuation message dispatched when the choice is
`nbfc_emi`. -/
def emiUnlockMessage : String :=
  "Great! Let me unlock the 0% EMI loan steps for you."

/-- Python `"Say: '{}' in Telugu.".format(agent_message)`. -/
def sayInTelugu (agent_message : JValue) : String :=
  "Say: \x27" ++ agent_message.format ++ "\x27 in Telugu."

/-- The re-engagement prompt built in the `force_reply` branch of
`on_data_received`. -/
def reEngagementPrompt (current_stage : JValue) : String :=
  PRE_SYSTEM_PROMPT ++ " You are reconnecting with the family during the \x27" ++
  current_stage.format ++ "\x27 stage. " ++
  "Ask a concise, warm Telugu question (mix in natural English words if helpful) that nudges them to continue."

/-- The composite stage instruction built in `update_agent_for_stage`
from the stage title and its guidance text. -/
def mkStageInstructions (stage_title stage_guidance : String) : String :=
  PRE_SYSTEM_PROMPT ++ " " ++
  "You are currently guiding the \x27" ++ stage_title ++ "\x27 stage. " ++
  stage_guidance ++ " Respond in Telugu with natural English phrases when they build comfort."

/-- The RAG answer prompt built in `on_user_turn_completed` from the
user query and the retrieved context. -/
def mkRagPrompt (user_query rag_context : String) : String :=
  "User asked: \x27" ++ user_query ++ "\x27. Context: " ++ rag_context ++ ". " ++
  "Answer briefly in Telugu. Don\x27t mention knowledge base."

/-- `_notify_flow_complete`: when `self.agent_session` has a truthy
`room`, publish `{"status": "ended", "message": "conversation_completed"}`,
with `agent_message` added when truthy.  A transport failure of the
publish call is caught and logged, so the effect records the call being
made. -/
def _notify_flow_complete (a : Agent) (agent_message : Option JValue) : List Effect :=
  match a.agent_session with
  | none => []
  | some s =>
    if s.room then
      let payload : List (String × JValue) :=
        [("status", JValue.jstr "ended"), ("message", JValue.jstr "conversation_completed")]
      let payload :=
        match agent_message with
        | some m => if m.truthy then payload ++ [("agent_message", m)] else payload
        | none => payload
      [Effect.publish payload]
    else []

/-- `_notify_stage_update`: when `self.agent_session` has a truthy
`room`, publish `{"stage": next_stage, "advance_stage": True}`, with
`agent_message` added when truthy. -/
def _notify_stage_update (a : Agent) (next_stage : JValue) (agent_message : Option JValue) : List Effect :=
  match a.agent_session with
  | none => []
  | some s =>
    if s.room then
      let payload : List (String × JValue) :=
        [("stage", next_stage), ("advance_stage", JValue.jbool true)]
      let payload :=
        match agent_message with
        | some m => if m.truthy then payload ++ [("agent_message", m)] else payload
        | none => payload
      [Effect.publish payload]
    else []

/-- `update_agent_for_stage`: a no-op on the terminal stages; otherwise
look up the stage guidance and, when it is found (and truthy) and a
session handle exists, dispatch the composite stage instruction as a
reply. -/
def update_agent_for_stage (a : Agent) : Agent × List Effect :=
  if a.current_stage = JValue.jstr "completed" ∨ a.current_stage = JValue.jstr "flow_complete" then
    (a, [])
  else
    match stageFocusGet a.current_stage, a.agent_session with
    | some stage_guidance, some _ =>
      if stage_guidance = "" then (a, [])
      else
        let stage_title := replaceUnderscores (JValue.format a.current_stage)
        (a, [Effect.reply (some (mkStageInstructions stage_title stage_guidance))])
    | _, _ => (a, [])

/-- `_process_payment_transition`: dispatch the agent message (when
truthy and a reply session is supplied), then either enter the terminal
stage `completed` and publish the "ended" notification (when
`next_stage == "flow_complete"`), or set the new stage, publish the
"stage advanced" notification, and run `update_agent_for_stage`. -/
def _process_payment_transition (a : Agent) (next_stage : JValue)
    (agent_message : Option JValue) (reply_session : Option Session) : Agent × List Effect :=
  let replyEffects : List Effect :=
    match agent_message, reply_session with
    | some m, some _ => if m.truthy then [Effect.reply (some (sayInTelugu m))] else []
    | _, _ => []
  if next_stage = JValue.jstr "flow_complete" then
    let a2 := { a with current_stage := JValue.jstr "completed" }
    (a2, replyEffects ++ _notify_flow_complete a2 agent_message)
  else
    let a2 := { a with current_stage := next_stage }
    let r := update_agent_for_stage a2
    (r.1, replyEffects ++ _notify_stage_update a2 next_stage agent_message ++ r.2)

/-- `_handle_payment_selection`: route the recorded payment choice made
by speech; replies go to `turn_ctx.session`. -/
def _handle_payment_selection (a : Agent) (turnSession : Session) : Agent × List Effect :=
  if a.user_payment_choice = some "credit_card" ∨ a.user_payment_choice = some "full_payment" then
    _process_payment_transition a (JValue.jstr "flow_complete")
      (some (JValue.jstr humanAgentMessage)) (some turnSession)
  else if a.user_payment_choice = some "nbfc_emi" then
    _process_payment_transition a (JValue.jstr "nbfc_selection")
      (some (JValue.jstr emiUnlockMessage)) (some turnSession)
  else (a, [])

/-- `_handle_payment_selection_direct`: route the recorded payment
choice made from the frontend; replies go to `self.agent_session`. -/
def _handle_payment_selection_direct (a : Agent) : Agent × List Effect :=
  if a.user_payment_choice = some "credit_card" ∨ a.user_payment_choice = some "full_payment" then
    _process_payment_transition a (JValue.jstr "flow_complete")
      (some (JValue.jstr humanAgentMessage)) a.agent_session
  else if a.user_payment_choice = some "nbfc_emi" then
    _process_payment_transition a (JValue.jstr "nbfc_selection")
      (some (JValue.jstr emiUnlockMessage)) a.agent_session
  else (a, [])

/-- `_map_payment_choice`: normalize a frontend token into the canonical
payment choice; a falsy or unrecognized token leaves the state
unchanged. -/
def _map_payment_choice (a : Agent) (choice : Option JValue) : Agent :=
  match choice with
  | none => a
  | some c =>
    if ¬ c.truthy then a
    else if c = JValue.jstr "credit-card" ∨ c = JValue.jstr "credit-card-emi" then
      { a with user_payment_choice := some "credit_card" }
    else if c = JValue.jstr "full-payment" then
      { a with user_payment_choice := some "full_payment" }
    else if c = JValue.jstr "nbfc-emi" ∨ c = JValue.jstr "0%-interest-loan-with-nbfc-(emi)" then
      { a with user_payment_choice := some "nbfc_emi" }
    else a

/-- The tail of `on_user_turn_completed` after the payment-options
branches: when a query engine is configured and the query contains a
question mark, consult it and answer from the retrieved context (a
lookup exception is caught and falls through); otherwise dispatch the
default, instruction-free reply. -/
def ragOrDefault (a : Agent) (user_query : String) : Agent × List Effect :=
  match a.query_engine with
  | some qe =>
    if strContains user_query "?" then
      match qe user_query with
      | Except.ok rag_response =>
        let rag_context := rag_response
        (a, [Effect.ragQuery user_query, Effect.reply (some (mkRagPrompt user_query rag_context))])
      | Except.error _ =>
        (a, [Effect.ragQuery user_query, Effect.reply none])
    else (a, [Effect.reply none])
  | none => (a, [Effect.reply none])

/-- `on_user_turn_completed`: in the `payment_options` stage, test the
lowered transcript against the credit-card, full-payment and nbfc-emi
keyword groups in that order, record the first match and run the payment
selection; otherwise fall through to the RAG/default reply logic. -/
def on_user_turn_completed (a : Agent) (turnSession : Session) (transcript : String) : Agent × List Effect :=
  let user_query := strLower transcript
  if a.current_stage = JValue.jstr "payment_options" then
    if anyKeyword creditCardKeywords user_query then
      _handle_payment_selection { a with user_payment_choice := some "credit_card" } turnSession
    else if anyKeyword fullPaymentKeywords user_query then
      _handle_payment_selection { a with user_payment_choice := some "full_payment" } turnSession
    else if anyKeyword nbfcEmiKeywords user_query then
      _handle_payment_selection { a with user_payment_choice := some "nbfc_emi" } turnSession
    else ragOrDefault a user_query
  else ragOrDefault a user_query

/-- `on_data_received`: decode the inbound bytes (`Except.error` is a
`json.loads` failure, caught by the boundary handler), then evaluate the
four recognized payload shapes in fixed precedence: `force_reply`, then
`payment_option.selected`, then `stage`, then `payment_choice`; a
payload matching none of them is dropped. -/
def on_data_received (a : Agent) (decoded : Except String Payload) : Agent × List Effect :=
  match decoded with
  | Except.error _ => (a, [])
  | Except.ok payload =>
    if pget payload "action" = some (JValue.jstr "force_reply") then
      match a.agent_session with
      | some _ => (a, [Effect.reply (some (reEngagementPrompt a.current_stage))])
      | none => (a, [])
    else if pget payload "type" = some (JValue.jstr "payment_option.selected") then
      let a2 := _map_payment_choice a (pget payload "choice")
      if optTruthy (pget payload "next_stage") then
        _process_payment_transition a2 ((pget payload "next_stage").getD JValue.jnull)
          (pget payload "agent_message") a2.agent_session
      else (a2, [])
    else if pcontains payload "stage" then
      let a2 := { a with current_stage := pindex payload "stage" }
      update_agent_for_stage a2
    else if pcontains payload "payment_choice" then
      let a2 := _map_payment_choice a (pget payload "payment_choice")
      match a2.agent_session with
      | some _ => _handle_payment_selection_direct a2
      | none => (a2, [])
    else (a, [])

/-- The four recognized control-message shapes, in the fixed precedence
order the handler checks them, plus the no-match case.  This formalizes
the dispatch table of the spec independently of `on_data_received`. -/
inductive CtrlBranch where
  | forceReply
  | paymentSelected
  | stageSet
  | paymentChoice
  | noMatch
  deriving DecidableEq

/-- First shape matched by a decoded payload, in the fixed precedence
`force_reply`, then `payment_option.selected`, then `stage`, then
`payment_choice`. -/
def matchedBranch (p : Payload) : CtrlBranch :=
  if pget p "action" = some (JValue.jstr "force_reply") then CtrlBranch.forceReply
  else if pget p "type" = some (JValue.jstr "payment_option.selected") then CtrlBranch.paymentSelected
  else if pcontains p "stage" then CtrlBranch.stageSet
  else if pcontains p "payment_choice" then CtrlBranch.paymentChoice
  else CtrlBranch.noMatch

/-- The single action attached to each recognized shape; a payload
matching no shape is a no-op. -/
def branchAction : CtrlBranch → Agent → Payload → Agent × List Effect
  | CtrlBranch.forceReply, a, _ =>
    (match a.agent_session with
     | some _ => (a, [Effect.reply (some (reEngagementPrompt a.current_stage))])
     | none => (a, []))
  | CtrlBranch.paymentSelected, a, p =>
    let a2 := _map_payment_choice a (pget p "choice")
    if optTruthy (pget p "next_stage") then
      _process_payment_transition a2 ((pget p "next_stage").getD JValue.jnull)
        (pget p "agent_message") a2.agent_session
    else (a2, [])
  | CtrlBranch.stageSet, a, p =>
    update_agent_for_stage { a with current_stage := pindex p "stage" }
  | CtrlBranch.paymentChoice, a, p =>
    let a2 := _map_payment_choice a (pget p "payment_choice")
    (match a2.agent_session with
     | some _ => _handle_payment_selection_direct a2
     | none => (a2, []))
  | CtrlBranch.noMatch, a, _ => (a, [])

/-- A token recognized by `_map_payment_choice`. -/
def recognizedPaymentToken (c : JValue) : Bool :=
  decide (c = JValue.jstr "credit-card" ∨ c = JValue.jstr "credit-card-emi" ∨
    c = JValue.jstr "full-payment" ∨ c = JValue.jstr "nbfc-emi" ∨
    c = JValue.jstr "0%-interest-loan-with-nbfc-(emi)")

/-- Whether a turn-completed event takes the payment-selection branch
with outcome `nbfc_emi`: stage is `payment_options`, no credit-card and
no full-payment keyword matches, and an nbfc-emi keyword matches. -/
def nbfcTurnPath (a : Agent) (t : String) : Bool :=
  decide (a.current_stage = JValue.jstr "payment_options") &&
  !(anyKeyword creditCardKeywords (strLower t)) &&
  !(anyKeyword fullPaymentKeywords (strLower t)) &&
  anyKeyword nbfcEmiKeywords (strLower t)

theorem countReplies_append (xs ys : List Effect) :
    countReplies (xs ++ ys) = countReplies xs + countReplies ys := by
  simp [countReplies, List.filter_append]

theorem countReplies_reply_one (i : Option String) :
    countReplies [Effect.reply i] = 1 := rfl

theorem countReplies_reply_cons (i : Option String) (es : List Effect) :
    countReplies (Effect.reply i :: es) = countReplies es + 1 := by
  simp [countReplies, isReply, List.filter_cons]

theorem countReplies_notify_flow_complete (a : Agent) (m : Option JValue) :
    countReplies (_notify_flow_complete a m) = 0 := by
  unfold _notify_flow_complete
  cases a.agent_session with
  | none => rfl
  | some s =>
    cases hs : s.room
    · simp [hs, countReplies]
    · cases m with
      | none => simp [hs, countReplies, isReply]
      | some v =>
        by_cases hv : v.truthy = true <;> simp [hs, hv, countReplies, isReply]

theorem countReplies_notify_stage_update (a : Agent) (ns : JValue) (m : Option JValue) :
    countReplies (_notify_stage_update a ns m) = 0 := by
  unfold _notify_stage_update
  cases a.agent_session with
  | none => rfl
  | some s =>
    cases hs : s.room
    · simp [hs, countReplies]
    · cases m with
      | none => simp [hs, countReplies, isReply]
      | some v =>
        by_cases hv : v.truthy = true <;> simp [hs, hv, countReplies, isReply]

theorem countReplies_ragOrDefault (a : Agent) (q : String) :
    countReplies (ragOrDefault a q).2 = 1 := by
  unfold ragOrDefault
  cases a.query_engine with
  | none => rfl
  | some qe =>
    by_cases hq : strContains q "?" = true
    · cases hr : qe q <;> simp [hq, hr, countReplies, isReply]
    · simp [hq, countReplies, isReply]

theorem update_agent_for_stage_fst (a : Agent) :
    (update_agent_for_stage a).1 = a := by
  unfold update_agent_for_stage
  split
  · rfl
  · split
    · split <;> rfl
    · rfl

theorem update_agent_for_stage_no_session (a : Agent) (h : a.agent_session = none) :
    update_agent_for_stage a = (a, []) := by
  unfold update_agent_for_stage
  split
  · rfl
  · rw [h]
    split
    · contradiction
    · rfl

theorem map_payment_choice_agent_session (a : Agent) (c : Option JValue) :
    (_map_payment_choice a c).agent_session = a.agent_session := by
  unfold _map_payment_choice
  cases c with
  | none => rfl
  | some v =>
    repeat' split
    all_goals rfl

theorem process_payment_transition_choice (a : Agent) (ns : JValue) (m : Option JValue) (rs : Option Session) :
    (_process_payment_transition a ns m rs).1.user_payment_choice = a.user_payment_choice := by
  simp only [_process_payment_transition]
  repeat' split
  all_goals try rfl
  all_goals rw [update_agent_for_stage_fst]

theorem handle_payment_selection_choice (a : Agent) (ts : Session) :
    (_handle_payment_selection a ts).1.user_payment_choice = a.user_payment_choice := by
  unfold _handle_payment_selection
  split
  · rw [process_payment_transition_choice]
  · split
    · rw [process_payment_transition_choice]
    · rfl

theorem handle_payment_selection_direct_choice (a : Agent) :
    (_handle_payment_selection_direct a).1.user_payment_choice = a.user_payment_choice := by
  unfold _handle_payment_selection_direct
  split
  · rw [process_payment_transition_choice]
  · split
    · rw [process_payment_transition_choice]
    · rfl

theorem handle_payment_selection_direct_none (a : Agent) (h : a.user_payment_choice = none) :
    _handle_payment_selection_direct a = (a, []) := by
  unfold _handle_payment_selection_direct
  rw [if_neg (by simp [h]), if_neg (by simp [h])]

theorem map_payment_choice_unrecognized (a : Agent) (c : Option JValue)
    (h : ∀ v, c = some v → recognizedPaymentToken v = false) :
    _map_payment_choice a c = a := by
  cases c with
  | none => rfl
  | some v =>
    have hv := of_decide_eq_false (h v rfl)
    push_neg at hv
    obtain ⟨hv1, hv2, hv3, hv4, hv5⟩ := hv
    simp [_map_payment_choice, hv1, hv2, hv3, hv4, hv5]

theorem ragOrDefault_lookup_error (a : Agent) (q : String) (qe : QueryEngine) (err : String)
    (hqe : a.query_engine = some qe)
    (hq : strContains q "?" = true)
    (herr : qe q = Except.error err) :
    ragOrDefault a q = (a, [Effect.ragQuery q, Effect.reply none]) := by
  unfold ragOrDefault
  rw [hqe]
  simp only [if_pos hq, herr]

theorem notify_flow_complete_result (b : Agent) (m : JValue) (sess : Session)
    (hsess : b.agent_session = some sess) (hroom : sess.room = true) (hm : m.truthy = true) :
    _notify_flow_complete b (some m) =
      [Effect.publish [("status", JValue.jstr "ended"),
        ("message", JValue.jstr "conversation_completed"), ("agent_message", m)]] := by
  unfold _notify_flow_complete
  rw [hsess]
  simp [hroom, hm]

theorem notify_stage_update_result (b : Agent) (ns : JValue) (m : JValue) (sess : Session)
    (hsess : b.agent_session = some sess) (hroom : sess.room = true) (hm : m.truthy = true) :
    _notify_stage_update b ns (some m) =
      [Effect.publish [("stage", ns), ("advance_stage", JValue.jbool true),
        ("agent_message", m)]] := by
  unfold _notify_stage_update
  rw [hsess]
  simp [hroom, hm]

theorem update_agent_result (b : Agent) (s g : String) (sess : Session)
    (hst : b.current_stage = JValue.jstr s)
    (hterm : ¬(s = "completed" ∨ s = "flow_complete"))
    (hg : lookupStr STAGE_FOCUS_PROMPTS s = some g)
    (hg0 : ¬ g = "")
    (hsess : b.agent_session = some sess) :
    update_agent_for_stage b =
      (b, [Effect.reply (some (mkStageInstructions (replaceUnderscores s) g))]) := by
  unfold update_agent_for_stage
  rw [hst, hsess]
  rw [if_neg (by simpa using hterm)]
  simp only [stageFocusGet]
  rw [hg]
  simp [hg0, JValue.format]

theorem process_flow_complete_result (a : Agent) (m : JValue) (s : Session) (sess : Session)
    (hm : m.truthy = true) (hsess : a.agent_session = some sess) (hroom : sess.room = true) :
    _process_payment_transition a (JValue.jstr "flow_complete") (some m) (some s) =
      ({ a with current_stage := JValue.jstr "completed" },
       [Effect.reply (some (sayInTelugu m)),
        Effect.publish [("status", JValue.jstr "ended"),
          ("message", JValue.jstr "conversation_completed"), ("agent_message", m)]]) := by
  simp only [_process_payment_transition]
  rw [if_pos hm, if_true]
  rw [notify_flow_complete_result { a with current_stage := JValue.jstr "completed" } m sess hsess hroom hm]
  rfl

theorem process_nbfc_advance_result (a : Agent) (m : JValue) (s : Session) (sess : Session)
    (hm : m.truthy = true) (hsess : a.agent_session = some sess) (hroom : sess.room = true) :
    _process_payment_transition a (JValue.jstr "nbfc_selection") (some m) (some s) =
      ({ a with current_stage := JValue.jstr "nbfc_selection" },
       [Effect.reply (some (sayInTelugu m)),
        Effect.publish [("stage", JValue.jstr "nbfc_selection"),
          ("advance_stage", JValue.jbool true), ("agent_message", m)],
        Effect.reply (some (mkStageInstructions "nbfc selection" nbfcSelectionFocus))]) := by
  simp only [_process_payment_transition]
  rw [if_pos hm, if_neg (show ¬(JValue.jstr "nbfc_selection" = JValue.jstr "flow_complete") from by decide)]
  rw [update_agent_result { a with current_stage := JValue.jstr "nbfc_selection" } "nbfc_selection"
    nbfcSelectionFocus sess rfl (by decide) rfl (by decide) hsess]
  rw [notify_stage_update_result { a with current_stage := JValue.jstr "nbfc_selection" }
    (JValue.jstr "nbfc_selection") m sess hsess hroom hm]
  rfl

theorem countReplies_process_flow (a : Agent) (m : JValue) (s : Session)
    (hm : m.truthy = true) :
    countReplies (_process_payment_transition a (JValue.jstr "flow_complete") (some m) (some s)).2 = 1 := by
  simp only [_process_payment_transition]
  rw [if_pos hm, if_true]
  simp [countReplies_reply_cons, countReplies_append, countReplies_notify_flow_complete,
    countReplies_reply_one]

theorem countReplies_update_nbfc (a : Agent) :
    countReplies (update_agent_for_stage { a with current_stage := JValue.jstr "nbfc_selection" }).2 =
      if a.agent_session.isSome then 1 else 0 := by
  by_cases hs : a.agent_session.isSome = true
  · obtain ⟨sess, hsess⟩ := Option.isSome_iff_exists.mp hs
    rw [update_agent_result { a with current_stage := JValue.jstr "nbfc_selection" } "nbfc_selection"
      nbfcSelectionFocus sess rfl (by decide) rfl (by decide) hsess, hs]
    simp [countReplies, isReply]
  · have hn : a.agent_session = none := Option.not_isSome_iff_eq_none.mp hs
    rw [update_agent_for_stage_no_session { a with current_stage := JValue.jstr "nbfc_selection" } hn]
    simp [countReplies, hs]

theorem countReplies_process_nbfc (a : Agent) (m : JValue) (s : Session)
    (hm : m.truthy = true) :
    countReplies (_process_payment_transition a (JValue.jstr "nbfc_selection") (some m) (some s)).2 =
      1 + (if a.agent_session.isSome then 1 else 0) := by
  simp only [_process_payment_transition]
  rw [if_pos hm, if_neg (show ¬(JValue.jstr "nbfc_selection" = JValue.jstr "flow_complete") from by decide)]
  simp [countReplies_reply_cons, countReplies_append, countReplies_notify_stage_update,
    countReplies_update_nbfc, countReplies_reply_one]
  omega

/-- C1 counterexample: at stage `payment_options` with a live session,
the transcript "emi" takes the payment-selection branch with choice
`nbfc_emi`, and the event performs two `generate_reply` dispatches (the
fixed transition reply and the `nbfc_selection` guidance reply), not
exactly one. -/
theorem C1_counterexample :
    countReplies (on_user_turn_completed
      { query_engine := none, current_stage := JValue.jstr "payment_options",
        user_payment_choice := none, agent_session := some { room := true } }
      { room := true } "emi").2 = 2 := by decide

/-- C1 (amended): each turn-completed event performs at least one and at
most two reply dispatches, and the three branches remain mutually
exclusive; the count is exactly one except when the payment-selection
branch fires with outcome `nbfc_emi` while a session handle is
configured, in which case the transition reply is followed by one
additional guidance dispatch for the new stage (two in total). -/
theorem C1_amended_reply_count (a : Agent) (ts : Session) (t : String) :
    countReplies (on_user_turn_completed a ts t).2 =
      if nbfcTurnPath a t && a.agent_session.isSome then 2 else 1 := by
  by_cases hst : a.current_stage = JValue.jstr "payment_options"
  · by_cases hc : anyKeyword creditCardKeywords (strLower t) = true
    · have hp : nbfcTurnPath a t = false := by simp [nbfcTurnPath, hc]
      simp only [on_user_turn_completed]
      rw [if_pos hst, if_pos hc]
      simp only [_handle_payment_selection]
      rw [if_pos (Or.inl trivial)]
      rw [countReplies_process_flow _ _ _ (by decide), hp]
      rfl
    · rw [Bool.not_eq_true] at hc
      by_cases hf : anyKeyword fullPaymentKeywords (strLower t) = true
      · have hp : nbfcTurnPath a t = false := by simp [nbfcTurnPath, hf]
        simp only [on_user_turn_completed]
        rw [if_pos hst, if_neg (by rw [hc]; exact Bool.false_ne_true), if_pos hf]
        simp only [_handle_payment_selection]
        rw [if_pos (Or.inr trivial)]
        rw [countReplies_process_flow _ _ _ (by decide), hp]
        rfl
      · rw [Bool.not_eq_true] at hf
        by_cases he : anyKeyword nbfcEmiKeywords (strLower t) = true
        · have hp : nbfcTurnPath a t = true := by simp [nbfcTurnPath, hst, hc, hf, he]
          simp only [on_user_turn_completed]
          rw [if_pos hst, if_neg (by rw [hc]; exact Bool.false_ne_true),
            if_neg (by rw [hf]; exact Bool.false_ne_true), if_pos he]
          simp only [_handle_payment_selection]
          rw [if_neg (by decide), if_true]
          rw [countReplies_process_nbfc _ _ _ (by decide), hp]
          cases a.agent_session <;> simp
        · rw [Bool.not_eq_true] at he
          have hp : nbfcTurnPath a t = false := by simp [nbfcTurnPath, he]
          simp only [on_user_turn_completed]
          rw [if_pos hst, if_neg (by rw [hc]; exact Bool.false_ne_true),
            if_neg (by rw [hf]; exact Bool.false_ne_true),
            if_neg (by rw [he]; exact Bool.false_ne_true)]
          rw [countReplies_ragOrDefault, hp]
          rfl
  · have hp : nbfcTurnPath a t = false := by
      simp [nbfcTurnPath, hst]
    simp only [on_user_turn_completed]
    rw [if_neg hst, countReplies_ragOrDefault, hp]
    rfl

/-- C2 counterexample: the payload `{"payment_choice": "surprise-token"}`
carries a token matching no recognized token, yet with a previously
recorded canonical choice (`credit_card`) and a live session the
payment-selection transition still runs: the stage changes from
`payment_options` to `completed`, so "no transition occurs and the
caller's state is left unchanged" is false. -/
theorem C2_counterexample :
    (on_data_received
        { query_engine := none, current_stage := JValue.jstr "payment_options",
          user_payment_choice := some "credit_card", agent_session := some { room := true } }
        (Except.ok [("payment_choice", JValue.jstr "surprise-token")])).1.current_stage =
      JValue.jstr "completed" ∧
    (on_data_received
        { query_engine := none, current_stage := JValue.jstr "payment_options",
          user_payment_choice := some "credit_card", agent_session := some { room := true } }
        (Except.ok [("payment_choice", JValue.jstr "surprise-token")])).1.current_stage ≠
      JValue.jstr "payment_options" := by
  constructor
  · decide
  · decide

/-- C2 (amended): for a control message whose payload reaches the
`payment_choice` branch, an unrecognized token leaves the recorded
`user_payment_choice` unchanged, and if no canonical choice was
previously recorded then no transition occurs and the caller's state is
left entirely unchanged.  (The code departs from the original claim in
that the payment-selection handler runs whenever a session handle
exists, so a previously recorded choice can re-fire a transition even
though normalizing this token failed.) -/
theorem C2_amended_unmatched_token (a : Agent) (p : Payload)
    (h1 : pget p "action" ≠ some (JValue.jstr "force_reply"))
    (h2 : pget p "type" ≠ some (JValue.jstr "payment_option.selected"))
    (h3 : pcontains p "stage" = false)
    (h4 : pcontains p "payment_choice" = true)
    (htok : ∀ v, pget p "payment_choice" = some v → recognizedPaymentToken v = false) :
    (on_data_received a (Except.ok p)).1.user_payment_choice = a.user_payment_choice ∧
    (a.user_payment_choice = none → on_data_received a (Except.ok p) = (a, [])) := by
  have hmap := map_payment_choice_unrecognized a _ htok
  constructor
  · simp only [on_data_received]
    rw [if_neg h1, if_neg h2, if_neg (by simp [h3]), if_pos h4, hmap]
    cases hs : a.agent_session
    · rfl
    · rw [handle_payment_selection_direct_choice]
  · intro hnone
    simp only [on_data_received]
    rw [if_neg h1, if_neg h2, if_neg (by simp [h3]), if_pos h4, hmap]
    cases hs : a.agent_session
    · rfl
    · exact handle_payment_selection_direct_none _ hnone

/-- Witness for the amended C2: an unmatched token with no previously
recorded choice is a complete no-op. -/
theorem C2_amended_unmatched_token_witness :
    (on_data_received
        { query_engine := none, current_stage := JValue.jstr "payment_options",
          user_payment_choice := none, agent_session := some { room := true } }
        (Except.ok [("payment_choice", JValue.jstr "surprise-token")])).1.user_payment_choice = none ∧
    on_data_received
        { query_engine := none, current_stage := JValue.jstr "payment_options",
          user_payment_choice := none, agent_session := some { room := true } }
        (Except.ok [("payment_choice", JValue.jstr "surprise-token")]) =
      ({ query_engine := none, current_stage := JValue.jstr "payment_options",
         user_payment_choice := none, agent_session := some { room := true } }, []) := by
  have h := C2_amended_unmatched_token
    { query_engine := none, current_stage := JValue.jstr "payment_options",
      user_payment_choice := none, agent_session := some { room := true } }
    [("payment_choice", JValue.jstr "surprise-token")]
    (by decide) (by decide) (by decide) (by decide)
    (by intro v hv; cases hv; decide)
  exact ⟨h.1, h.2 rfl⟩

/-- C3: a byte sequence that fails to decode as JSON is caught at the
boundary of `on_data_received`: no exception escapes (the handler is a
total function) and the conversation state, including `current_stage`
and `user_payment_choice`, is unchanged, with no external calls made. -/
theorem C3_malformed_message_noop (a : Agent) (e : String) :
    on_data_received a (Except.error e) = (a, []) := rfl

/-- C4: every decoded control message is dispatched by the fixed
precedence `force_reply`, then `payment_option.selected`, then `stage`,
then `payment_choice`: the first matching shape's action runs, no later
branch runs (at most one action per message), and a payload matching no
shape is a no-op. -/
theorem C4_control_message_precedence (a : Agent) (p : Payload) :
    on_data_received a (Except.ok p) = branchAction (matchedBranch p) a p := by
  simp only [on_data_received, matchedBranch]
  by_cases h1 : pget p "action" = some (JValue.jstr "force_reply")
  · rw [if_pos h1, if_pos h1]; rfl
  · rw [if_neg h1, if_neg h1]
    by_cases h2 : pget p "type" = some (JValue.jstr "payment_option.selected")
    · rw [if_pos h2, if_pos h2]; rfl
    · rw [if_neg h2, if_neg h2]
      by_cases h3 : pcontains p "stage" = true
      · rw [if_pos h3, if_pos h3]; rfl
      · rw [if_neg h3, if_neg h3]
        by_cases h4 : pcontains p "payment_choice" = true
        · rw [if_pos h4, if_pos h4]; rfl
        · rw [if_neg h4, if_neg h4]; rfl

/-- C5: on a turn-completed event with a configured knowledge gateway, a
transcript containing "?", and the payment-selection branch not firing,
a lookup exception is caught and handling degrades to the default
(instruction-free) reply dispatch; the failure never escapes the
handler, which returns with the state unchanged. -/
theorem C5_lookup_failure_fallback (a : Agent) (ts : Session) (t : String)
    (qe : QueryEngine) (err : String)
    (hqe : a.query_engine = some qe)
    (hq : strContains (strLower t) "?" = true)
    (herr : qe (strLower t) = Except.error err)
    (hpay : a.current_stage = JValue.jstr "payment_options" →
      anyKeyword creditCardKeywords (strLower t) = false ∧
      anyKeyword fullPaymentKeywords (strLower t) = false ∧
      anyKeyword nbfcEmiKeywords (strLower t) = false) :
    on_user_turn_completed a ts t = (a, [Effect.ragQuery (strLower t), Effect.reply none]) := by
  simp only [on_user_turn_completed]
  by_cases hst : a.current_stage = JValue.jstr "payment_options"
  · obtain ⟨h1, h2, h3⟩ := hpay hst
    rw [if_pos hst, if_neg (by rw [h1]; exact Bool.false_ne_true),
      if_neg (by rw [h2]; exact Bool.false_ne_true),
      if_neg (by rw [h3]; exact Bool.false_ne_true)]
    exact ragOrDefault_lookup_error a _ qe err hqe hq herr
  · rw [if_neg hst]
    exact ragOrDefault_lookup_error a _ qe err hqe hq herr

/-- Witness for C5: a gateway that always raises, a transcript with a
question mark, and a stage outside `payment_options`. -/
theorem C5_lookup_failure_fallback_witness :
    on_user_turn_completed
        { query_engine := some (fun _ => Except.error "lookup timeout"),
          current_stage := JValue.jstr "greeting",
          user_payment_choice := none, agent_session := none }
        { room := false } "what is emi?" =
      ({ query_engine := some (fun _ => Except.error "lookup timeout"),
         current_stage := JValue.jstr "greeting",
         user_payment_choice := none, agent_session := none },
       [Effect.ragQuery "what is emi?", Effect.reply none]) :=
  C5_lookup_failure_fallback _ _ _ _ "lookup timeout" rfl (by decide) rfl
    (fun h => absurd h (by decide))

/-- C6: with `stage = payment_options` and a transcript whose
free-speech normalization yields `full_payment`, exactly one reply
dispatch occurs, the stage transitions to the terminal stage
`"completed"`, and exactly one "ended" notification is published whose
payload has `status = "ended"`. -/
theorem C6_full_payment_scenario (a : Agent) (ts : Session) (sess : Session) (t : String)
    (hst : a.current_stage = JValue.jstr "payment_options")
    (hsess : a.agent_session = some sess)
    (hroom : sess.room = true)
    (hcredit : anyKeyword creditCardKeywords (strLower t) = false)
    (hfull : anyKeyword fullPaymentKeywords (strLower t) = true) :
    (on_user_turn_completed a ts t).1.current_stage = JValue.jstr "completed" ∧
    countReplies (on_user_turn_completed a ts t).2 = 1 ∧
    countEnded (on_user_turn_completed a ts t).2 = 1 := by
  have key : on_user_turn_completed a ts t =
      ({ a with user_payment_choice := some "full_payment", current_stage := JValue.jstr "completed" },
       [Effect.reply (some (sayInTelugu (JValue.jstr humanAgentMessage))),
        Effect.publish [("status", JValue.jstr "ended"),
          ("message", JValue.jstr "conversation_completed"),
          ("agent_message", JValue.jstr humanAgentMessage)]]) := by
    simp only [on_user_turn_completed]
    rw [if_pos hst, if_neg (by rw [hcredit]; exact Bool.false_ne_true), if_pos hfull]
    simp only [_handle_payment_selection]
    rw [if_pos (Or.inr trivial)]
    exact process_flow_complete_result _ _ _ sess (by decide) hsess hroom
  rw [key]
  exact ⟨rfl, rfl, rfl⟩

/-- Witness for C6 at the transcript "I want full payment". -/
theorem C6_full_payment_scenario_witness :
    (on_user_turn_completed
        { query_engine := none, current_stage := JValue.jstr "payment_options",
          user_payment_choice := none, agent_session := some { room := true } }
        { room := true } "I want full payment").1.current_stage = JValue.jstr "completed" ∧
    countReplies (on_user_turn_completed
        { query_engine := none, current_stage := JValue.jstr "payment_options",
          user_payment_choice := none, agent_session := some { room := true } }
        { room := true } "I want full payment").2 = 1 ∧
    countEnded (on_user_turn_completed
        { query_engine := none, current_stage := JValue.jstr "payment_options",
          user_payment_choice := none, agent_session := some { room := true } }
        { room := true } "I want full payment").2 = 1 :=
  C6_full_payment_scenario _ _ { room := true } _ rfl rfl rfl (by decide) (by decide)

/-- C7: with `stage = payment_options` and a transcript whose
free-speech normalization yields `nbfc_emi`, the stage transitions to
`nbfc_selection` and the effect trace is exactly: the fixed transition
reply, then one "stage advanced" notification whose payload carries
`advance_stage = true`, then one guidance reply dispatch for the
`nbfc_selection` stage. -/
theorem C7_nbfc_emi_scenario (a : Agent) (ts : Session) (sess : Session) (t : String)
    (hst : a.current_stage = JValue.jstr "payment_options")
    (hsess : a.agent_session = some sess)
    (hroom : sess.room = true)
    (hcredit : anyKeyword creditCardKeywords (strLower t) = false)
    (hfull : anyKeyword fullPaymentKeywords (strLower t) = false)
    (hemi : anyKeyword nbfcEmiKeywords (strLower t) = true) :
    (on_user_turn_completed a ts t).1.current_stage = JValue.jstr "nbfc_selection" ∧
    (on_user_turn_completed a ts t).2 =
      [Effect.reply (some (sayInTelugu (JValue.jstr emiUnlockMessage))),
       Effect.publish [("stage", JValue.jstr "nbfc_selection"),
         ("advance_stage", JValue.jbool true), ("agent_message", JValue.jstr emiUnlockMessage)],
       Effect.reply (some (mkStageInstructions "nbfc selection" nbfcSelectionFocus))] := by
  have key : on_user_turn_completed a ts t =
      ({ a with user_payment_choice := some "nbfc_emi", current_stage := JValue.jstr "nbfc_selection" },
       [Effect.reply (some (sayInTelugu (JValue.jstr emiUnlockMessage))),
        Effect.publish [("stage", JValue.jstr "nbfc_selection"),
          ("advance_stage", JValue.jbool true), ("agent_message", JValue.jstr emiUnlockMessage)],
        Effect.reply (some (mkStageInstructions "nbfc selection" nbfcSelectionFocus))]) := by
    simp only [on_user_turn_completed]
    rw [if_pos hst, if_neg (by rw [hcredit]; exact Bool.false_ne_true),
      if_neg (by rw [hfull]; exact Bool.false_ne_true), if_pos hemi]
    simp only [_handle_payment_selection]
    rw [if_neg (by decide), if_true]
    exact process_nbfc_advance_result _ _ _ sess (by decide) hsess hroom
  rw [key]
  exact ⟨rfl, rfl⟩

/-- Witness for C7 at the transcript "I will go with NBFC emi". -/
theorem C7_nbfc_emi_scenario_witness :
    (on_user_turn_completed
        { query_engine := none, current_stage := JValue.jstr "payment_options",
          user_payment_choice := none, agent_session := some { room := true } }
        { room := true } "I will go with NBFC emi").1.current_stage = JValue.jstr "nbfc_selection" ∧
    (on_user_turn_completed
        { query_engine := none, current_stage := JValue.jstr "payment_options",
          user_payment_choice := none, agent_session := some { room := true } }
        { room := true } "I will go with NBFC emi").2 =
      [Effect.reply (some (sayInTelugu (JValue.jstr emiUnlockMessage))),
       Effect.publish [("stage", JValue.jstr "nbfc_selection"),
         ("advance_stage", JValue.jbool true), ("agent_message", JValue.jstr emiUnlockMessage)],
       Effect.reply (some (mkStageInstructions "nbfc selection" nbfcSelectionFocus))] :=
  C7_nbfc_emi_scenario _ _ { room := true } _ rfl rfl rfl (by decide) (by decide) (by decide)

/-- C8: in the `payment_options` stage, a free-speech input matching
both a credit-card keyword and an nbfc-emi keyword normalizes to
`credit_card`, because the credit-card keyword group is tested first and
the first match wins. -/
theorem C8_credit_precedence (a : Agent) (ts : Session) (t : String)
    (hst : a.current_stage = JValue.jstr "payment_options")
    (hcredit : anyKeyword creditCardKeywords (strLower t) = true)
    (hemi : anyKeyword nbfcEmiKeywords (strLower t) = true) :
    (on_user_turn_completed a ts t).1.user_payment_choice = some "credit_card" := by
  simp only [on_user_turn_completed]
  rw [if_pos hst, if_pos hcredit, handle_payment_selection_choice]

/-- Witness for C8 at the transcript "credit emi", which contains both
the keyword "credit" and the keyword "emi". -/
theorem C8_credit_precedence_witness :
    (on_user_turn_completed
        { query_engine := none, current_stage := JValue.jstr "payment_options",
          user_payment_choice := none, agent_session := none }
        { room := false } "credit emi").1.user_payment_choice = some "credit_card" :=
  C8_credit_precedence _ _ _ rfl (by decide) (by decide)

/-- C9: whenever the current stage is terminal (`"completed"` or
`"flow_complete"`), `update_agent_for_stage` performs no guidance lookup
and dispatches no reply: it returns the state unchanged with an empty
effect trace. -/
theorem C9_terminal_stage_no_guidance (a : Agent)
    (h : a.current_stage = JValue.jstr "completed" ∨ a.current_stage = JValue.jstr "flow_complete") :
    update_agent_for_stage a = (a, []) := by
  unfold update_agent_for_stage
  rw [if_pos h]

/-- Witness for C9 at a concrete terminal-stage agent. -/
theorem C9_terminal_stage_no_guidance_witness :
    update_agent_for_stage
        { query_engine := none, current_stage := JValue.jstr "completed",
          user_payment_choice := none, agent_session := some { room := true } } =
      ({ query_engine := none, current_stage := JValue.jstr "completed",
         user_payment_choice := none, agent_session := some { room := true } }, []) :=
  C9_terminal_stage_no_guidance _ (Or.inl rfl)

/-- C10: with no session handle (`agent_session = None`), a control
message never raises: a `force_reply` message dispatches nothing, a
`payment_choice` message records the normalized choice but runs no
transition, and a `stage` message still mutates the current stage while
no guidance reply can be dispatched. -/
theorem C10_no_session_safety (a : Agent) (p : Payload) (h : a.agent_session = none) :
    (pget p "action" = some (JValue.jstr "force_reply") →
      on_data_received a (Except.ok p) = (a, [])) ∧
    (pget p "action" ≠ some (JValue.jstr "force_reply") →
      pget p "type" ≠ some (JValue.jstr "payment_option.selected") →
      pcontains p "stage" = false →
      pcontains p "payment_choice" = true →
      on_data_received a (Except.ok p) = (_map_payment_choice a (pget p "payment_choice"), [])) ∧
    (pget p "action" ≠ some (JValue.jstr "force_reply") →
      pget p "type" ≠ some (JValue.jstr "payment_option.selected") →
      pcontains p "stage" = true →
      on_data_received a (Except.ok p) = ({ a with current_stage := pindex p "stage" }, [])) := by
  refine ⟨?_, ?_, ?_⟩
  · intro h1
    simp only [on_data_received]
    rw [if_pos h1, h]
  · intro h1 h2 h3 h4
    simp only [on_data_received]
    rw [if_neg h1, if_neg h2, if_neg (by simp [h3]), if_pos h4,
      map_payment_choice_agent_session, h]
  · intro h1 h2 h3
    simp only [on_data_received]
    rw [if_neg h1, if_neg h2, if_pos h3]
    exact update_agent_for_stage_no_session _ h

/-- Witness for C10: with `agent_session = none`, all three message
shapes behave as stated at concrete inputs. -/
theorem C10_no_session_safety_witness :
    on_data_received
        { query_engine := none, current_stage := JValue.jstr "greeting",
          user_payment_choice := none, agent_session := none }
        (Except.ok [("action", JValue.jstr "force_reply")]) =
      ({ query_engine := none, current_stage := JValue.jstr "greeting",
         user_payment_choice := none, agent_session := none }, []) ∧
    on_data_received
        { query_engine := none, current_stage := JValue.jstr "greeting",
          user_payment_choice := none, agent_session := none }
        (Except.ok [("payment_choice", JValue.jstr "nbfc-emi")]) =
      ({ query_engine := none, current_stage := JValue.jstr "greeting",
         user_payment_choice := some "nbfc_emi", agent_session := none }, []) ∧
    on_data_received
        { query_engine := none, current_stage := JValue.jstr "greeting",
          user_payment_choice := none, agent_session := none }
        (Except.ok [("stage", JValue.jstr "kyc")]) =
      ({ query_engine := none, current_stage := JValue.jstr "kyc",
         user_payment_choice := none, agent_session := none }, []) := by
  refine ⟨?_, ?_, ?_⟩
  · exact (C10_no_session_safety _ _ rfl).1 (by decide)
  · exact (C10_no_session_safety _ _ rfl).2.1 (by decide) (by decide) (by decide) (by decide)
  · exact (C10_no_session_safety _ _ rfl).2.2 (by decide) (by decide) (by decide)
